import Mathlib

/-!
Verification of the example word-count tool
(`src/core/tool-engine/runners/example-tool.py`) and of the Tool Engine
contract described in the specification.

The Python tool is shallowly embedded: Python values appearing as tool
arguments become `PyVal`, the arguments dictionary becomes an association
list with Python's `dict.get` semantics, and the tool's returned dictionary
`{"ok": ..., "data": ..., "error": ...}` becomes `ResultDict` with optional
fields.  A Python exception (attribute error on a non-string receiver of
`.strip()`) is modelled by the `Except.error` branch.
-/

/-- A Python value that can appear as an argument of the tool.  Only the
shapes relevant to the tool are modelled: strings, integers, booleans and
`None`. -/
inductive PyVal where
  | str (s : String)
  | int (n : Int)
  | bool (b : Bool)
  | none
deriving DecidableEq

/-- Python truthiness for the modelled values: `""`, `0`, `False` and
`None` are falsy, everything else is truthy. -/
def truthy : PyVal → Bool
  | PyVal.str s => !(s == "")
  | PyVal.int n => !(n == 0)
  | PyVal.bool b => b
  | PyVal.none => false

/-- An arguments dictionary: string keys mapped to Python values. -/
abbrev ArgsMap := List (String × PyVal)

/-- Python's `d.get(k, default)`: the value at the first matching key, or
the default when the key is absent. -/
def dictGet (args : ArgsMap) (k : String) (dflt : PyVal) : PyVal :=
  match args.find? (fun p => p.1 == k) with
  | some p => p.2
  | Option.none => dflt

/-- Python's whitespace characters for `str.strip()` / `str.split()`
(ASCII range: space, tab, newline, carriage return, vertical tab,
form feed). -/
def isPySpace (c : Char) : Bool :=
  c == ' ' || c == '\t' || c == '\n' || c == '\r' ||
    c == Char.ofNat 11 || c == Char.ofNat 12

/-- Python's `s.strip()`: remove leading and trailing whitespace. -/
def pyStrip (s : String) : String :=
  ⟨((s.data.dropWhile isPySpace).reverse.dropWhile isPySpace).reverse⟩

/-- Worker for `pySplit`: walk the characters, accumulating the current
word (reversed) and emitting it at each whitespace run or at the end. -/
def pySplitGo : List Char → List Char → List (List Char)
  | [], cur => if cur.isEmpty then [] else [cur.reverse]
  | c :: cs, cur =>
    if isPySpace c then
      if cur.isEmpty then pySplitGo cs [] else cur.reverse :: pySplitGo cs []
    else pySplitGo cs (c :: cur)

/-- Python's `s.split()` with no separator: split on runs of whitespace,
never producing empty pieces. -/
def pySplit (s : String) : List String :=
  (pySplitGo s.data []).map (fun l => ⟨l⟩)

/-- The list comprehension `[w for w in text.strip().split() if w]` from
the tool source. -/
def pyWords (text : String) : List String :=
  (pySplit (pyStrip text)).filter (fun w => !(w == ""))

/-- The `data` dictionary built by the tool on success:
`{"wordCount": ..., "characterCount": ..., "words": ...}`. -/
structure WordCountData where
  wordCount : Nat
  characterCount : Nat
  words : List String
deriving DecidableEq

/-- The `error` dictionary of a failure result: a message and an optional
stable error code (the example tool never sets a code). -/
structure ErrorInfo where
  message : String
  code : Option String := Option.none
deriving DecidableEq

/-- The dictionary returned by the tool: an `ok` flag and optional
`data` / `error` fields, mirroring the Python dict literal shape. -/
structure ResultDict where
  ok : Bool
  data : Option WordCountData := Option.none
  error : Option ErrorInfo := Option.none
deriving DecidableEq

/-- The tool's entry function `run(args)` from
`src/core/tool-engine/runners/example-tool.py`:

* `text = args.get("text", "")`;
* `if not text:` return the missing-parameter failure dict;
* otherwise `words = [w for w in text.strip().split() if w]` and return
  the success dict with `wordCount`, `characterCount` and the first 10
  `words`.

A truthy non-string `text` makes Python raise an `AttributeError` at
`text.strip()`; that is the `Except.error` branch. -/
def run (args : ArgsMap) : Except String ResultDict :=
  let text := dictGet args "text" (PyVal.str "")
  if !(truthy text) then
    Except.ok { ok := false,
                error := some { message := "Missing required parameter: text" } }
  else
    match text with
    | PyVal.str s =>
      let words := pyWords s
      Except.ok { ok := true,
                  data := some { wordCount := words.length,
                                 characterCount := s.data.length,
                                 words := words.take 10 } }
    | _ => Except.error "AttributeError: object has no attribute strip"

/-- Claim C1: invoking the word-count tool with
`{"text": "the quick brown fox"}` returns a Success result whose data is
exactly `{wordCount: 4, characterCount: 19,
words: ["the", "quick", "brown", "fox"]}`. -/
theorem run_quick_brown_fox :
    run [("text", PyVal.str "the quick brown fox")] =
      Except.ok { ok := true,
                  data := some { wordCount := 4,
                                 characterCount := 19,
                                 words := ["the", "quick", "brown", "fox"] },
                  error := Option.none } := by
  rfl

/-- Claim C2: invoking the tool with the empty arguments mapping returns a
Failure result (not an exception) whose error message is exactly
"Missing required parameter: text". -/
theorem run_empty_args_failure :
    run [] =
      Except.ok { ok := false,
                  data := Option.none,
                  error := some { message := "Missing required parameter: text",
                                  code := Option.none } } := by
  rfl

/-- Helper: when the "text" argument is a falsy value the tool returns the
missing-parameter failure dictionary. -/
theorem run_falsy_eq (args : ArgsMap) (v : PyVal)
    (hv : dictGet args "text" (PyVal.str "") = v) (hf : truthy v = false) :
    run args =
      Except.ok { ok := false,
                  data := Option.none,
                  error := some { message := "Missing required parameter: text",
                                  code := Option.none } } := by
  simp [run, hv, hf]

/-- Helper: when the "text" argument is a non-empty string `s` the tool
returns the success dictionary computed from `s`. -/
theorem run_str_success (args : ArgsMap) (s : String)
    (h : dictGet args "text" (PyVal.str "") = PyVal.str s) (hne : s ≠ "") :
    run args =
      Except.ok { ok := true,
                  data := some { wordCount := (pyWords s).length,
                                 characterCount := s.data.length,
                                 words := (pyWords s).take 10 },
                  error := Option.none } := by
  simp [run, h, truthy, hne]

/-- Helper: when the "text" argument is truthy but not a string the tool
raises (models Python's `AttributeError` at `text.strip()`). -/
theorem run_raises_eq (args : ArgsMap) (v : PyVal)
    (hv : dictGet args "text" (PyVal.str "") = v) (ht : truthy v = true)
    (hns : ∀ s, v ≠ PyVal.str s) :
    run args = Except.error "AttributeError: object has no attribute strip" := by
  cases v with
  | str s => exact absurd rfl (hns s)
  | int n => simp [run, hv, truthy] at ht ⊢; simp [ht]
  | bool b => simp [run, hv, truthy] at ht ⊢; simp [ht]
  | none => simp [truthy] at ht

/-- Claim C3: for a string "text" argument the success data has the full
word count and character count, but the words list is truncated to the
first 10 words: its length is exactly 10 when there are more than 10
words, and it lists all the words when there are at most 10. -/
theorem run_words_truncated (args : ArgsMap) (s : String)
    (h : dictGet args "text" (PyVal.str "") = PyVal.str s) (hne : s ≠ "") :
    run args =
      Except.ok { ok := true,
                  data := some { wordCount := (pyWords s).length,
                                 characterCount := s.data.length,
                                 words := (pyWords s).take 10 },
                  error := Option.none } ∧
    (10 < (pyWords s).length → ((pyWords s).take 10).length = 10) ∧
    ((pyWords s).length ≤ 10 → (pyWords s).take 10 = pyWords s) := by
  refine ⟨run_str_success args s h hne, ?_, ?_⟩
  · intro hlen
    simp [List.length_take]
    omega
  · intro hlen
    exact List.take_of_length_le hlen

/-- Claim C3 witness: the 11-word text "a b c d e f g h i j k" is
truncated to 10 words. -/
theorem run_words_truncated_witness :
    dictGet [("text", PyVal.str "a b c d e f g h i j k")] "text" (PyVal.str "") =
        PyVal.str "a b c d e f g h i j k" ∧
    "a b c d e f g h i j k" ≠ "" ∧
    (run [("text", PyVal.str "a b c d e f g h i j k")] =
        Except.ok { ok := true,
                    data := some
                      { wordCount := (pyWords "a b c d e f g h i j k").length,
                        characterCount :=
                          ("a b c d e f g h i j k" : String).data.length,
                        words := (pyWords "a b c d e f g h i j k").take 10 },
                    error := Option.none } ∧
      (10 < (pyWords "a b c d e f g h i j k").length →
        ((pyWords "a b c d e f g h i j k").take 10).length = 10) ∧
      ((pyWords "a b c d e f g h i j k").length ≤ 10 →
        (pyWords "a b c d e f g h i j k").take 10 =
          pyWords "a b c d e f g h i j k")) :=
  ⟨rfl, by decide, run_words_truncated _ _ rfl (by decide)⟩

/-- Claim C4: whenever `run` returns a result dictionary, it is exactly one
of the two variants: ok with a data field and no error field, or not-ok
with an error field and no data field. -/
theorem run_result_exclusive (args : ArgsMap) (r : ResultDict)
    (h : run args = Except.ok r) :
    (r.ok = true ∧ r.data.isSome = true ∧ r.error = Option.none) ∨
    (r.ok = false ∧ r.error.isSome = true ∧ r.data = Option.none) := by
  simp only [run] at h
  split at h
  · rw [Except.ok.injEq] at h
    subst h
    right
    simp
  · split at h
    · rw [Except.ok.injEq] at h
      subst h
      left
      simp
    · exact absurd h (by simp)

/-- Claim C4 witness: the failure dictionary for the empty arguments
mapping satisfies the exclusive shape. -/
theorem run_result_exclusive_witness :
    run [] =
      Except.ok { ok := false,
                  data := Option.none,
                  error := some { message := "Missing required parameter: text",
                                  code := Option.none } } ∧
    ((({ ok := false,
         data := Option.none,
         error := some { message := "Missing required parameter: text",
                         code := Option.none } } : ResultDict).ok = true ∧
      ({ ok := false,
         data := Option.none,
         error := some { message := "Missing required parameter: text",
                         code := Option.none } } : ResultDict).data.isSome = true ∧
      ({ ok := false,
         data := Option.none,
         error := some { message := "Missing required parameter: text",
                         code := Option.none } } : ResultDict).error =
        Option.none) ∨
     (({ ok := false,
         data := Option.none,
         error := some { message := "Missing required parameter: text",
                         code := Option.none } } : ResultDict).ok = false ∧
      ({ ok := false,
         data := Option.none,
         error := some { message := "Missing required parameter: text",
                         code := Option.none } } : ResultDict).error.isSome = true ∧
      ({ ok := false,
         data := Option.none,
         error := some { message := "Missing required parameter: text",
                         code := Option.none } } : ResultDict).data =
        Option.none)) :=
  ⟨rfl, run_result_exclusive [] _ rfl⟩

/-- Claim C5: the tool reads only the "text" key, so any two arguments
mappings that resolve "text" to the same value produce the same result;
unknown keys are ignored. -/
theorem run_ignores_unknown_keys (a1 a2 : ArgsMap)
    (h : dictGet a1 "text" (PyVal.str "") = dictGet a2 "text" (PyVal.str "")) :
    run a1 = run a2 := by
  unfold run
  rw [h]

/-- Claim C5 witness: adding an unrelated "mode" key does not change the
result. -/
theorem run_ignores_unknown_keys_witness :
    dictGet [("text", PyVal.str "hi"), ("mode", PyVal.int 3)] "text"
        (PyVal.str "") =
      dictGet [("text", PyVal.str "hi")] "text" (PyVal.str "") ∧
    run [("text", PyVal.str "hi"), ("mode", PyVal.int 3)] =
      run [("text", PyVal.str "hi")] :=
  ⟨rfl, run_ignores_unknown_keys _ _ rfl⟩

/-- Claim C6: for any arguments mapping whose "text" key is a non-empty
string, the tool returns a Success result whose data has the documented
output shape (wordCount, characterCount, words). -/
theorem run_valid_text_success (args : ArgsMap) (s : String)
    (h : dictGet args "text" (PyVal.str "") = PyVal.str s) (hne : s ≠ "") :
    ∃ d : WordCountData,
      run args = Except.ok { ok := true, data := some d, error := Option.none } :=
  ⟨_, run_str_success args s h hne⟩

/-- Claim C6 witness: the "hello world" arguments yield a Success with a
data payload. -/
theorem run_valid_text_success_witness :
    dictGet [("text", PyVal.str "hello world")] "text" (PyVal.str "") =
        PyVal.str "hello world" ∧
    "hello world" ≠ "" ∧
    ∃ d : WordCountData,
      run [("text", PyVal.str "hello world")] =
        Except.ok { ok := true, data := some d, error := Option.none } :=
  ⟨rfl, by decide, run_valid_text_success _ _ rfl (by decide)⟩

/-- Claim C7: `run` returns a result dictionary exactly when the "text"
value (after `args.get`, so also when the key is absent) is falsy or a
string; a truthy non-string value makes it raise instead (the `.strip()`
call fails), so under the precondition that "text" is absent or a string,
`run` is total. -/
theorem run_total_iff_text_string_or_falsy (args : ArgsMap) (v : PyVal)
    (hv : dictGet args "text" (PyVal.str "") = v) :
    (∃ r, run args = Except.ok r) ↔
      (truthy v = false ∨ ∃ s, v = PyVal.str s) := by
  constructor
  · rintro ⟨r, hr⟩
    by_contra hc
    push_neg at hc
    obtain ⟨hf, hns⟩ := hc
    have ht : truthy v = true := by
      cases htv : truthy v
      · exact absurd htv hf
      · rfl
    rw [run_raises_eq args v hv ht hns] at hr
    exact absurd hr (by simp)
  · intro hcase
    rcases hcase with hf | ⟨s, hs⟩
    · exact ⟨_, run_falsy_eq args v hv hf⟩
    · subst hs
      by_cases hse : s = ""
      · subst hse
        exact ⟨_, run_falsy_eq args _ hv (by simp [truthy])⟩
      · exact ⟨_, run_str_success args s hv hse⟩

/-- Claim C7 witness: with "text" bound to the number 5 (truthy
non-string), `run` does not return a result dictionary. -/
theorem run_total_iff_text_string_or_falsy_witness :
    dictGet [("text", PyVal.int 5)] "text" (PyVal.str "") = PyVal.int 5 ∧
    ((∃ r, run [("text", PyVal.int 5)] = Except.ok r) ↔
      (truthy (PyVal.int 5) = false ∨ ∃ s, PyVal.int 5 = PyVal.str s)) :=
  ⟨rfl, run_total_iff_text_string_or_falsy _ _ rfl⟩

/-- Claim C8: any falsy "text" value (empty string, 0, False, None) is
treated exactly like a missing argument: `run` returns the same
missing-parameter Failure as for the empty arguments mapping. -/
theorem run_falsy_same_as_missing (args : ArgsMap) (v : PyVal)
    (hv : dictGet args "text" (PyVal.str "") = v) (hf : truthy v = false) :
    run args =
      Except.ok { ok := false,
                  data := Option.none,
                  error := some { message := "Missing required parameter: text",
                                  code := Option.none } } ∧
    run args = run [] := by
  have h1 := run_falsy_eq args v hv hf
  exact ⟨h1, by rw [h1]; rfl⟩

/-- Claim C8 witness: "text" bound to the empty string behaves like the
empty arguments mapping. -/
theorem run_falsy_same_as_missing_witness :
    dictGet [("text", PyVal.str "")] "text" (PyVal.str "") = PyVal.str "" ∧
    truthy (PyVal.str "") = false ∧
    (run [("text", PyVal.str "")] =
        Except.ok { ok := false,
                    data := Option.none,
                    error := some
                      { message := "Missing required parameter: text",
                        code := Option.none } } ∧
      run [("text", PyVal.str "")] = run []) :=
  ⟨rfl, rfl, run_falsy_same_as_missing _ _ rfl rfl⟩

/-- Runner lifecycle states from the specification (Cold/Warming are
collapsed into spawning, which the claims do not observe). -/
inductive RunnerStatus where
  | ready
  | busy
  | faulted
  | terminated
deriving DecidableEq

/-- A Runner of the pool: an identifier and its lifecycle status. -/
structure Runner where
  id : Nat
  status : RunnerStatus
deriving DecidableEq

/-- Modelled from the spec: the Engine's Result shape, a tagged union of
`Success{data}` and `Failure{error}` (the Tool Engine source is not part
of the shown repository). -/
inductive EngineResult (α : Type) where
  | success (data : α)
  | failure (error : ErrorInfo)
deriving DecidableEq

/-- Modelled from the spec: a tool's execution as observed by the Engine,
indexed by how many scheduling steps the Engine is willing to wait;
`Option.none` means the tool has not produced its Result within that many
steps.  A tool that never returns yields `Option.none` at every fuel. -/
abbrev ToolExec (α : Type) := ArgsMap → Nat → Option (EngineResult α)

/-- Modelled from the spec: the Tool Engine's process-wide state (the Tool
Engine source is not part of the shown repository): the tool registry, the
configured execution timeout (in scheduling steps), the Runner pool, the
next fresh Runner identifier, and a spawn counter. -/
structure EngineState (α : Type) where
  registry : List (String × ToolExec α)
  timeout : Nat
  runners : List Runner
  nextId : Nat
  spawnCount : Nat

/-- Look a tool up in the registry by name. -/
def lookupTool {α : Type} (st : EngineState α) (name : String) :
    Option (ToolExec α) :=
  (st.registry.find? (fun p => p.1 == name)).map (fun p => p.2)

/-- Set the status of the Runner with the given identifier. -/
def setStatus (rs : List Runner) (rid : Nat) (status : RunnerStatus) :
    List Runner :=
  rs.map (fun r => if r.id == rid then { r with status := status } else r)

/-- Modelled from the spec: acquire a Ready Runner from the pool, or spawn
a fresh one (incrementing the spawn counter); the acquired Runner becomes
Busy.  Returns the bound Runner's identifier and the updated state. -/
def acquire {α : Type} (st : EngineState α) : Nat × EngineState α :=
  match st.runners.find? (fun r => r.status == RunnerStatus.ready) with
  | some r =>
    (r.id, { st with runners := setStatus st.runners r.id RunnerStatus.busy })
  | Option.none =>
    (st.nextId,
     { st with
        runners :=
          st.runners ++ [{ id := st.nextId, status := RunnerStatus.busy }],
        nextId := st.nextId + 1,
        spawnCount := st.spawnCount + 1 })

/-- The outcome of one `invoke` call: the Result returned to the caller,
the Runner bound to the Invocation (if any), and the Engine state after
the call. -/
structure InvokeOut (α : Type) where
  result : EngineResult α
  bound : Option Nat
  state : EngineState α

/-- Modelled from the spec: the Engine's public entry point
`invoke(toolName, arguments)` (the Tool Engine source is not part of the
shown repository).  An unregistered name is rejected before any Runner
involvement; otherwise a Runner is acquired and the tool is run for at
most the configured timeout of scheduling steps: a produced Result is
passed through and the Runner is released to Ready, while exhausting the
timeout yields `Failure{code:"timeout"}` and the bound Runner is forcibly
terminated, never returning to the pool. -/
def invoke {α : Type} (st : EngineState α) (name : String) (args : ArgsMap) :
    InvokeOut α :=
  match lookupTool st name with
  | Option.none =>
    { result :=
        EngineResult.failure
          { message := "Unknown tool", code := some "unknown-tool" },
      bound := Option.none,
      state := st }
  | some exec =>
    let acq := acquire st
    match exec args st.timeout with
    | some r =>
      { result := r,
        bound := some acq.1,
        state :=
          { acq.2 with
              runners := setStatus acq.2.runners acq.1 RunnerStatus.ready } }
    | Option.none =>
      { result :=
          EngineResult.failure
            { message := "Tool execution timed out", code := some "timeout" },
        bound := some acq.1,
        state :=
          { acq.2 with
              runners :=
                setStatus acq.2.runners acq.1 RunnerStatus.terminated } }

/-- Modelled from the spec: a sequence of later invocations, collecting
the Runner bound to each one. -/
def invokeSeq {α : Type} (st : EngineState α) :
    List (String × ArgsMap) → List (Option Nat) × EngineState α
  | [] => ([], st)
  | (n, a) :: rest =>
    let out := invoke st n a
    let tl := invokeSeq out.state rest
    (out.bound :: tl.1, tl.2)

/-- Claim C9: invoking an unregistered tool name returns a Failure with
error code "unknown-tool" and leaves the Engine state untouched (in
particular no Runner is spawned: the spawn counter is unchanged). -/
theorem invoke_unknown_tool {α : Type} (st : EngineState α) (name : String)
    (args : ArgsMap) (h : lookupTool st name = Option.none) :
    invoke st name args =
      { result :=
          EngineResult.failure
            { message := "Unknown tool", code := some "unknown-tool" },
        bound := Option.none,
        state := st } ∧
    (invoke st name args).state.spawnCount = st.spawnCount := by
  simp [invoke, h]

/-- Claim C9 witness: an empty-registry Engine rejects the name "nope"
with spawn counter staying 0. -/
theorem invoke_unknown_tool_witness :
    lookupTool (α := Unit)
        { registry := [], timeout := 5, runners := [], nextId := 0,
          spawnCount := 0 } "nope" = Option.none ∧
    (invoke (α := Unit)
        { registry := [], timeout := 5, runners := [], nextId := 0,
          spawnCount := 0 } "nope" [] =
      { result :=
          EngineResult.failure
            { message := "Unknown tool", code := some "unknown-tool" },
        bound := Option.none,
        state :=
          { registry := [], timeout := 5, runners := [], nextId := 0,
            spawnCount := 0 } } ∧
     (invoke (α := Unit)
        { registry := [], timeout := 5, runners := [], nextId := 0,
          spawnCount := 0 } "nope" []).state.spawnCount = 0) :=
  ⟨rfl, invoke_unknown_tool _ "nope" [] rfl⟩

/-- Helper: after `setStatus rs rid status`, every Runner with identifier
`rid` has the new status. -/
theorem setStatus_sets (rs : List Runner) (rid : Nat) (status : RunnerStatus) :
    ∀ r ∈ setStatus rs rid status, r.id = rid → r.status = status := by
  intro r hr hid
  obtain ⟨r1, hr1, heq⟩ := List.mem_map.mp hr
  by_cases h : r1.id = rid
  · rw [if_pos (by simp [h])] at heq
    rw [← heq]
  · rw [if_neg (by simp [h])] at heq
    rw [← heq] at hid
    exact absurd hid h

/-- Helper: `setStatus` on a different identifier keeps every Runner with
identifier `rid` terminated. -/
theorem setStatus_preserves (rs : List Runner) (rid rid2 : Nat)
    (status : RunnerStatus) (hne : rid2 ≠ rid)
    (hterm : ∀ r ∈ rs, r.id = rid → r.status = RunnerStatus.terminated) :
    ∀ r ∈ setStatus rs rid2 status, r.id = rid →
      r.status = RunnerStatus.terminated := by
  intro r hr hid
  obtain ⟨r1, hr1, heq⟩ := List.mem_map.mp hr
  by_cases h : r1.id = rid2
  · exfalso
    rw [if_pos (by simp [h])] at heq
    rw [← heq] at hid
    simp only [] at hid
    exact hne (h ▸ hid)
  · rw [if_neg (by simp [h])] at heq
    rw [← heq] at hid ⊢
    exact hterm r1 hr1 hid

/-- Helper: acquiring a Runner never picks an identifier whose Runners are
all terminated, keeps those Runners terminated, and keeps the identifier
below the fresh-identifier bound. -/
theorem acquire_spec {α : Type} (st : EngineState α) (rid : Nat)
    (hterm : ∀ r ∈ st.runners, r.id = rid → r.status = RunnerStatus.terminated)
    (hlt : rid < st.nextId) :
    (acquire st).1 ≠ rid ∧
    (∀ r ∈ (acquire st).2.runners, r.id = rid →
      r.status = RunnerStatus.terminated) ∧
    rid < (acquire st).2.nextId := by
  cases hf : st.runners.find? (fun r => r.status == RunnerStatus.ready) with
  | none =>
    simp only [acquire, hf]
    refine ⟨by omega, ?_, by omega⟩
    intro r hr hid
    rcases List.mem_append.mp hr with hin | hnew
    · exact hterm r hin hid
    · exfalso
      rw [List.mem_singleton] at hnew
      subst hnew
      simp at hid
      omega
  | some r0 =>
    have hmem := List.mem_of_find?_eq_some hf
    have hready : r0.status = RunnerStatus.ready := by
      have hp := List.find?_some hf
      simpa using hp
    have hne : r0.id ≠ rid := by
      intro hid
      have hts := hterm r0 hmem hid
      rw [hts] at hready
      cases hready
    simp only [acquire, hf]
    exact ⟨hne, setStatus_preserves _ _ _ _ hne hterm, hlt⟩

/-- Helper: a single `invoke` never binds an identifier whose Runners are
all terminated, keeps those Runners terminated, and keeps the identifier
below the fresh-identifier bound. -/
theorem invoke_not_reuse_terminated {α : Type} (st : EngineState α)
    (rid : Nat) (n : String) (a : ArgsMap)
    (hterm : ∀ r ∈ st.runners, r.id = rid → r.status = RunnerStatus.terminated)
    (hlt : rid < st.nextId) :
    (invoke st n a).bound ≠ some rid ∧
    (∀ r ∈ (invoke st n a).state.runners, r.id = rid →
      r.status = RunnerStatus.terminated) ∧
    rid < (invoke st n a).state.nextId := by
  obtain ⟨hb, hpres, hlt2⟩ := acquire_spec st rid hterm hlt
  cases hl : lookupTool st n with
  | none =>
    simp only [invoke, hl]
    exact ⟨by simp, hterm, hlt⟩
  | some exec =>
    cases he : exec a st.timeout with
    | none =>
      simp only [invoke, hl, he]
      refine ⟨by simp [hb], ?_, hlt2⟩
      exact setStatus_preserves _ _ _ _ hb hpres
    | some r =>
      simp only [invoke, hl, he]
      refine ⟨by simp [hb], ?_, hlt2⟩
      exact setStatus_preserves _ _ _ _ hb hpres

/-- Helper: once every Runner with identifier `rid` is terminated and
`rid` is below the fresh-identifier bound, no later sequence of
invocations ever binds `rid` again. -/
theorem invokeSeq_no_terminated {α : Type} (rid : Nat)
    (calls : List (String × ArgsMap)) :
    ∀ st : EngineState α,
      (∀ r ∈ st.runners, r.id = rid → r.status = RunnerStatus.terminated) →
      rid < st.nextId →
      some rid ∉ (invokeSeq st calls).1 := by
  induction calls with
  | nil =>
    intro st _ _
    simp [invokeSeq]
  | cons c rest ih =>
    intro st hterm hlt
    obtain ⟨n, a⟩ := c
    obtain ⟨hb, hpres, hlt2⟩ := invoke_not_reuse_terminated st rid n a hterm hlt
    simp only [invokeSeq, List.mem_cons, not_or]
    exact ⟨fun h => hb h.symm, ih _ hpres hlt2⟩

/-- Helper: the Runner acquired by `acquire` has an identifier below the
updated fresh-identifier bound, provided the pool is well-formed. -/
theorem acquire_lt_nextId {α : Type} (st : EngineState α)
    (hwf : ∀ r ∈ st.runners, r.id < st.nextId) :
    (acquire st).1 < (acquire st).2.nextId := by
  cases hf : st.runners.find? (fun r => r.status == RunnerStatus.ready) with
  | none =>
    simp only [acquire, hf]
    exact Nat.lt_succ_self st.nextId
  | some r0 =>
    have hmem := List.mem_of_find?_eq_some hf
    simp only [acquire, hf]
    exact hwf r0 hmem

/-- Claim C10: a tool that never returns (no Result at any fuel) makes
`invoke` return Failure with error code "timeout" once the configured
timeout of scheduling steps is exhausted (the wall-clock bound "timeout
plus epsilon" is modelled by the fuel bound `st.timeout`); the Runner
bound to that invocation is terminated and is never bound again by any
later sequence of invocations. -/
theorem invoke_diverging_timeout {α : Type} (st : EngineState α)
    (name : String) (args : ArgsMap) (exec : ToolExec α)
    (hfind : lookupTool st name = some exec)
    (hdiv : ∀ a f, exec a f = Option.none)
    (hwf : ∀ r ∈ st.runners, r.id < st.nextId)
    (calls : List (String × ArgsMap)) :
    (invoke st name args).result =
      EngineResult.failure
        { message := "Tool execution timed out", code := some "timeout" } ∧
    ∃ rid, (invoke st name args).bound = some rid ∧
      (∀ r ∈ (invoke st name args).state.runners, r.id = rid →
        r.status = RunnerStatus.terminated) ∧
      some rid ∉ (invokeSeq (invoke st name args).state calls).1 := by
  simp only [invoke, hfind, hdiv]
  refine ⟨trivial, (acquire st).1, rfl, setStatus_sets _ _ _, ?_⟩
  exact invokeSeq_no_terminated _ calls _ (setStatus_sets _ _ _)
    (acquire_lt_nextId st hwf)

/-- A concrete Engine state with one registered tool that never returns,
used to exercise the timeout path. -/
def loopState : EngineState Unit :=
  { registry := [("loop", fun _ _ => Option.none)], timeout := 3,
    runners := [], nextId := 0, spawnCount := 0 }

/-- Claim C10 witness: the never-returning tool "loop" times out, its
Runner is terminated, and a follow-up invocation does not bind it. -/
theorem invoke_diverging_timeout_witness :
    lookupTool loopState "loop" =
        some (fun (_ : ArgsMap) (_ : Nat) =>
          (Option.none : Option (EngineResult Unit))) ∧
    (∀ (a : ArgsMap) (f : Nat),
      (fun (_ : ArgsMap) (_ : Nat) =>
        (Option.none : Option (EngineResult Unit))) a f = Option.none) ∧
    (∀ r ∈ loopState.runners, r.id < loopState.nextId) ∧
    ((invoke loopState "loop" []).result =
        EngineResult.failure
          { message := "Tool execution timed out", code := some "timeout" } ∧
      ∃ rid, (invoke loopState "loop" []).bound = some rid ∧
        (∀ r ∈ (invoke loopState "loop" []).state.runners, r.id = rid →
          r.status = RunnerStatus.terminated) ∧
        some rid ∉
          (invokeSeq (invoke loopState "loop" []).state [("loop", [])]).1) :=
  ⟨rfl, fun _ _ => rfl, by simp [loopState],
   invoke_diverging_timeout loopState "loop" [] _ rfl (fun _ _ => rfl)
     (by simp [loopState]) [("loop", [])]⟩
